import Mathlib

/-!
Formal model of the soil-analysis backend in `src/isricv5.py`.

Conventions of the shallow embedding:
* Python floats are modelled as exact rationals; the literal `0.2` becomes
  `1/5` and `7.5` becomes `15/2`.
* Python `None` is modelled with `Option`; a Python value that is either a
  number or `None` has type `Option ℚ`.
* A dict key that may be present or absent gets an outer `Option` layer
  (see `SoilDict`): `none` means the key is absent, `some v` means the key is
  present with value `v` (which can itself be the Python `None`).
* Timestamps (`datetime.now(timezone.utc)`, `date_recorded`) are integer
  seconds in UTC, so the tz normalization of lines 113-114 is the identity;
  `timedelta(days=2)` is `2 * 86400` seconds.
* A raised Python exception is modelled as the `crash` outcome carrying a
  `PyErr`; fallible sub-computations return `Except PyErr`.
* The SQLite table behind `SoilData.query.all()` is a `List SoilData` in
  insertion order (the integer autoincrement primary key is left implicit);
  `db.session.add` appends, `db.session.delete` removes the record.
* The two HTTP fetchers are black boxes: their outcome (status / payload) is
  an explicit input of `analyze_soil`.
-/

/-- Python runtime errors that the modelled code can raise:
`TypeError` (from `None < number`, `None / number`, `"error"["name"]`) and
`IndexError` (from `[0]` on an empty list). -/
inductive PyErr where
  | typeError
  | indexError
deriving DecidableEq

/-- The `values` dict of one depth entry of a SoilGrids layer
(`{"mean": m, "uncertainty": u}`); `none` models an absent key. -/
structure LayerValues where
  mean : Option ℚ
  uncertainty : Option ℚ
deriving DecidableEq

/-- One depth entry of a SoilGrids layer; only its `values` dict is read by
the code (the `label`/`range` keys are never accessed and are not modelled). -/
structure SoilDepth where
  values : LayerValues
deriving DecidableEq

/-- One named layer of the SoilGrids payload
(`response.json()['properties']['layers']`, lines 46 and 142-159). -/
structure SoilLayer where
  name : String
  depths : List SoilDepth
deriving DecidableEq

/-- The `day` aggregate of one weatherapi forecast day (line 87-92, 169-170). -/
structure DayAgg where
  daily_chance_of_rain : ℚ
  maxwind_kph : ℚ
  avgtemp_c : ℚ
  avghumidity : ℚ
deriving DecidableEq

/-- One entry of `response.json()['forecast']['forecastday']`. -/
structure ForecastDay where
  day : DayAgg
deriving DecidableEq

/-- The persisted record (class `SoilData`, lines 21-34).  In the schema every
column is declared `nullable=False`; the extraction code of `analyze_soil`
nevertheless produces Python `None` for missing layers, which is why the
measurement fields are modelled as `Option ℚ`. -/
structure SoilData where
  lat : ℚ
  lon : ℚ
  nitrogen : Option ℚ
  nitrogen_uncertainty : Option ℚ
  ph : Option ℚ
  moisture : Option ℚ
  cec : Option ℚ
  temperature : ℚ
  humidity : ℚ
  recommendations : String
  predictions : String
  date_recorded : ℤ
deriving DecidableEq

/-- The dict passed as first argument to `generate_recommendations`.
Outer `Option`: key present or absent (`.get` falls back to its default only
when the key is absent).  Inner `Option ℚ`: the stored value, which at the
call site of line 172-177 can be the Python `None`. -/
structure SoilDict where
  nitrogen : Option (Option ℚ)
  wv0010 : Option (Option ℚ)
  phh2o : Option (Option ℚ)
  cec : Option (Option ℚ)

/-- Python `a < b` where `a` can be `None`: `None < number` raises
`TypeError` in Python 3 (lines 73, 75). -/
def pyLt (a : Option ℚ) (b : ℚ) : Except PyErr Bool :=
  match a with
  | none => .error .typeError
  | some x => .ok (decide (x < b))

/-- Python `a >= b` where `a` can be `None` (line 83). -/
def pyGe (a : Option ℚ) (b : ℚ) : Except PyErr Bool :=
  match a with
  | none => .error .typeError
  | some x => .ok (decide (b ≤ x))

/-- Python `a / b` where `a` can be `None`: `None / 10` raises `TypeError`
(line 69). -/
def pyDiv (a : Option ℚ) (b : ℚ) : Except PyErr ℚ :=
  match a with
  | none => .error .typeError
  | some x => .ok (x / b)

/-- `set.add` followed by a final `list(...)`: the Python `set` of
recommendation strings is modelled as a duplicate-free list in insertion
order (all strings added in one run are distinct, so the order is the
insertion order; set iteration order itself is not semantically relevant
to any property proved here, only membership is). -/
def addSet (l : List String) (s : String) : List String :=
  if s ∈ l then l else l ++ [s]

def msg_nitrogen : String := "Consider adding nitrogen-based fertilizers."

def msg_moisture : String := "Soil moisture is low. Increase irrigation."

def msg_ph_optimal : String := "Soil pH is within the optimal range."

def msg_ph_lime : String := "Consider adding lime to raise the pH."

def msg_ph_sulfur : String := "Consider adding sulfur to lower the pH."

def msg_cec : String := "CEC is within the optimal range."

/-- Python `f"{v:.1f}"`: one decimal digit.  Python rounds the underlying
binary double; here the rational is rounded directly (half up, via a floor
division).  No claim depends on the exact digits, only on the messages being
distinct strings. -/
def fmtOne (q : ℚ) : String :=
  let r : ℚ := q * 10 + 1/2
  let n : ℤ := r.num.fdiv (r.den : ℤ)
  let sign := if n < 0 then "-" else ""
  sign ++ toString (n.natAbs / 10) ++ "." ++ toString (n.natAbs % 10)

def msg_rain (v : ℚ) : String :=
  "High average chance of rain (" ++ fmtOne v ++ "%). Delay irrigation."

def msg_wind (v : ℚ) : String :=
  "Strong winds expected (" ++ fmtOne v ++ " kph). Protect crops."

/-- `sum(day['day']['daily_chance_of_rain'] for day in weather_data) / len(weather_data)` (line 87). -/
def avg_rain (days : List ForecastDay) : ℚ :=
  (days.map (fun d => d.day.daily_chance_of_rain)).sum / (days.length : ℚ)

/-- `sum(day['day']['maxwind_kph'] for day in weather_data) / len(weather_data)` (line 88). -/
def avg_wind (days : List ForecastDay) : ℚ :=
  (days.map (fun d => d.day.maxwind_kph)).sum / (days.length : ℚ)

/-- `generate_recommendations` (lines 66-94), in Python statement order.
`soil_data.get(k, 0)` yields the stored value when the key is present (even
when that value is `None`) and `0` only when the key is absent.  The division
of line 69 and the comparisons of lines 73, 75 and 83 raise `TypeError` when
they meet `None`.  `weather_data` is falsy when `None` or the empty list. -/
def generate_recommendations (sd : SoilDict) (wd : Option (List ForecastDay)) :
    Except PyErr (List String) :=
  let nitrogen : Option ℚ := sd.nitrogen.getD (some 0)
  let moisture : Option ℚ := sd.wv0010.getD (some 0)
  match pyDiv (sd.phh2o.getD (some 0)) 10 with
  | .error e => .error e
  | .ok ph =>
    let cec : Option ℚ := sd.cec.getD (some 0)
    match pyLt nitrogen 100 with
    | .error e => .error e
    | .ok bNitrogen =>
      let r1 : List String := if bNitrogen then addSet [] msg_nitrogen else []
      match pyLt moisture (1/5) with
      | .error e => .error e
      | .ok bMoisture =>
        let r2 : List String := if bMoisture then addSet r1 msg_moisture else r1
        let r3 : List String :=
          if 6 < ph ∧ ph < 15/2 then addSet r2 msg_ph_optimal
          else if ph < 6 then addSet r2 msg_ph_lime
          else if 15/2 < ph then addSet r2 msg_ph_sulfur
          else r2
        match pyGe cec 10 with
        | .error e => .error e
        | .ok bCec =>
          let r4 : List String := if bCec then addSet r3 msg_cec else r3
          .ok (match wd with
            | none => r4
            | some days =>
              if days.isEmpty then r4
              else
                let ar := avg_rain days
                let aw := avg_wind days
                let r5 := if 50 < ar then addSet r4 (msg_rain ar) else r4
                if 20 < aw then addSet r5 (msg_wind aw) else r5)

/-- What the soil fetcher did: an HTTP status other than 200, or a 200
response whose parsed `properties.layers` is the given list. -/
inductive SoilFetchOutcome where
  | ok (layers : List SoilLayer)
  | httpError (status : Nat)

/-- The Python value returned by `get_soil_data`: either the layers list or
the dict `{"error": ...}`. -/
inductive PySoilResult where
  | layers (ls : List SoilLayer)
  | errorDict (msg : String)

/-- What the weather fetcher did. -/
inductive WeatherFetchOutcome where
  | ok (days : List ForecastDay)
  | httpError (status : Nat)

/-- The null check of line 49 iterates `layer.values()` of each layer dict.
A layer dict always maps `"name"` to a string, which is never `None`, so a
single layer never has all values `None`; the generator over all layers is
therefore vacuously all-`None` exactly when the layers list is empty. -/
def layer_dict_values_all_none (_l : SoilLayer) : Bool := false

/-- `get_soil_data` (lines 41-54): on a 200 response return the layers unless
every value of every layer dict is `None`; otherwise return an error dict.
Both failure shapes are non-empty dicts, hence truthy Python values. -/
def get_soil_data (o : SoilFetchOutcome) : PySoilResult :=
  match o with
  | .httpError status => .errorDict s!"Failed to fetch data: {status}"
  | .ok layers =>
    if layers.all layer_dict_values_all_none then
      .errorDict "Data returned is null. Please try again later."
    else
      .layers layers

/-- `get_weather_data` (lines 57-63): the forecast-day list on 200, else `None`. -/
def get_weather_data (o : WeatherFetchOutcome) : Option (List ForecastDay) :=
  match o with
  | .ok days => some days
  | .httpError _ => none

/-- Python truthiness of the value returned by `get_soil_data`: a non-empty
dict is truthy, a list is truthy when non-empty. -/
def soil_truthy : PySoilResult → Bool
  | .errorDict _ => true
  | .layers ls => !ls.isEmpty

/-- Python truthiness of the value returned by `get_weather_data`. -/
def weather_truthy : Option (List ForecastDay) → Bool
  | none => false
  | some ds => !ds.isEmpty

/-- The per-record test of line 100:
`abs(record.lat - lat) <= threshold and abs(record.lon - lon) <= threshold`. -/
def coord_match (lat lon threshold : ℚ) (r : SoilData) : Bool :=
  decide (|r.lat - lat| ≤ threshold) && decide (|r.lon - lon| ≤ threshold)

/-- `find_closest_coordinates` (lines 97-102): linear scan over all stored
records in storage order, first match wins. -/
def find_closest_coordinates (db : List SoilData) (lat lon : ℚ)
    (threshold : ℚ) : Option SoilData :=
  db.find? (coord_match lat lon threshold)

/-- Lines 142, 148-154: locate the `nitrogen` layer; when present read
`depths[0]['values']` (an `IndexError` when `depths` is empty), take
`.get('mean')` and `.get('uncertainty', 0)`; when absent both variables are
set to `None`. -/
def extract_nitrogen (layers : List SoilLayer) :
    Except PyErr (Option ℚ × Option ℚ) :=
  match layers.find? (fun l => l.name == "nitrogen") with
  | none => .ok (none, none)
  | some l =>
    match l.depths with
    | [] => .error .indexError
    | d :: _ => .ok (d.values.mean, some (d.values.uncertainty.getD 0))

/-- Lines 143, 157: `phh2o_layer['depths'][0]['values'].get('mean') if phh2o_layer else None`. -/
def extract_phh2o (layers : List SoilLayer) : Except PyErr (Option ℚ) :=
  match layers.find? (fun l => l.name == "phh2o") with
  | none => .ok none
  | some l =>
    match l.depths with
    | [] => .error .indexError
    | d :: _ => .ok d.values.mean

/-- Lines 144, 158: same for `wv0010`. -/
def extract_wv0010 (layers : List SoilLayer) : Except PyErr (Option ℚ) :=
  match layers.find? (fun l => l.name == "wv0010") with
  | none => .ok none
  | some l =>
    match l.depths with
    | [] => .error .indexError
    | d :: _ => .ok d.values.mean

/-- Lines 145, 159: same for `cec`. -/
def extract_cec (layers : List SoilLayer) : Except PyErr (Option ℚ) :=
  match layers.find? (fun l => l.name == "cec") with
  | none => .ok none
  | some l =>
    match l.depths with
    | [] => .error .indexError
    | d :: _ => .ok d.values.mean

/-- How the `recommendations` value appears in the JSON response: either one
joined string or a list of strings.  The code returns the stored joined
string (`new_record.recommendations`, line 196; `existing_record.recommendations`, line 133). -/
inductive RecsField where
  | asString (s : String)
  | asList (l : List String)
deriving DecidableEq

/-- The success response of lines 185-197: its `soil_data` block is rendered
from the values of the freshly built record (the pH entry shows `phh2o/10`
while the record stores the raw `phh2o`; the cache-hit response of line 126
shows the stored raw value instead), and its `recommendations` entry is
`new_record.recommendations`. -/
structure SuccessResponse where
  record : SoilData
  recommendations : RecsField
deriving DecidableEq

/-- The four possible outcomes of one `analyze` request:
a cache hit (the JSON of lines 120-134, rendered from exactly the fields of
the existing record), the fetch-failure 500 of line 140, an uncaught Python
exception (Flask turns it into a generic 500), or the success JSON. -/
inductive AnalyzeResult where
  | found (r : SoilData)
  | fetchFail
  | crash (e : PyErr)
  | success (resp : SuccessResponse)
deriving DecidableEq

/-- Result of one request: the response, the table contents afterwards, and
whether the two upstream fetchers were invoked (lines 137-138 run only on
the miss path). -/
structure AnalyzeOutcome where
  res : AnalyzeResult
  db : List SoilData
  fetched : Bool
deriving DecidableEq

/-- Lines 136-197 of `analyze_soil`: the cache-miss path.  Note that an
error dict returned by `get_soil_data` is a truthy value, so the
`if not soil_data or not weather_data` guard of line 139 does not catch it;
iterating that dict at line 142 yields its string key, and `"error"["name"]`
raises `TypeError`.  The two `weather` fallback arms are unreachable (the
guard already failed for falsy weather); they model the `IndexError` that
`weather_data[0]` would raise. -/
def analyze_miss (db : List SoilData) (now : ℤ) (lat lon : ℚ)
    (so : SoilFetchOutcome) (wo : WeatherFetchOutcome) : AnalyzeOutcome :=
  let soil_data := get_soil_data so
  let weather_data := get_weather_data wo
  if !soil_truthy soil_data || !weather_truthy weather_data then
    ⟨.fetchFail, db, true⟩
  else
    match soil_data, weather_data with
    | .errorDict _, _ => ⟨.crash .typeError, db, true⟩
    | .layers _, none => ⟨.crash .indexError, db, true⟩
    | .layers _, some [] => ⟨.crash .indexError, db, true⟩
    | .layers layers, some (d0 :: rest) =>
      match extract_nitrogen layers with
      | .error e => ⟨.crash e, db, true⟩
      | .ok (nitrogen, nitrogen_uncertainty) =>
        match extract_phh2o layers with
        | .error e => ⟨.crash e, db, true⟩
        | .ok phh2o =>
          match extract_wv0010 layers with
          | .error e => ⟨.crash e, db, true⟩
          | .ok wv0010 =>
            match extract_cec layers with
            | .error e => ⟨.crash e, db, true⟩
            | .ok cec =>
              match generate_recommendations
                  ⟨some nitrogen, some wv0010, some phh2o, some cec⟩
                  (some (d0 :: rest)) with
              | .error e => ⟨.crash e, db, true⟩
              | .ok recs =>
                let new_record : SoilData :=
                  { lat := lat, lon := lon, nitrogen := nitrogen,
                    nitrogen_uncertainty := nitrogen_uncertainty,
                    ph := phh2o, moisture := wv0010, cec := cec,
                    temperature := d0.day.avgtemp_c,
                    humidity := d0.day.avghumidity,
                    recommendations := String.intercalate "; " recs,
                    predictions := "", date_recorded := now }
                ⟨.success ⟨new_record, .asString new_record.recommendations⟩,
                  db ++ [new_record], true⟩

/-- `analyze_soil` (lines 104-197): cache lookup with the default threshold
`0.5`, freshness test `now - date_recorded > timedelta(days=2)`, stale
records deleted before falling through to the miss path. -/
def analyze_soil (db : List SoilData) (now : ℤ) (lat lon : ℚ)
    (so : SoilFetchOutcome) (wo : WeatherFetchOutcome) : AnalyzeOutcome :=
  match find_closest_coordinates db lat lon (1/2) with
  | some existing_record =>
    if now - existing_record.date_recorded > 2 * 86400 then
      analyze_miss (db.erase existing_record) now lat lon so wo
    else
      ⟨.found existing_record, db, false⟩
  | none => analyze_miss db now lat lon so wo


/-! ### Canonical payloads and concrete fixtures -/

/-- A payload layer with a single depth entry carrying a mean and an uncertainty. -/
def std_layer (nm : String) (m u : ℚ) : SoilLayer := ⟨nm, [⟨⟨some m, some u⟩⟩]⟩

/-- A complete soil payload: all four named layers present with numeric means. -/
def std_layers (n u p w c : ℚ) : List SoilLayer :=
  [std_layer "nitrogen" n u, std_layer "phh2o" p 0, std_layer "wv0010" w 0,
    std_layer "cec" c 0]

/-- A soil payload whose `nitrogen` layer is absent. -/
def layers_no_nitrogen (p w c : ℚ) : List SoilLayer :=
  [std_layer "phh2o" p 0, std_layer "wv0010" w 0, std_layer "cec" c 0]

/-- A soil payload whose `phh2o` layer is absent. -/
def layers_no_phh2o (n u w c : ℚ) : List SoilLayer :=
  [std_layer "nitrogen" n u, std_layer "wv0010" w 0, std_layer "cec" c 0]

/-- A soil payload whose `wv0010` layer is absent. -/
def layers_no_wv0010 (n u p c : ℚ) : List SoilLayer :=
  [std_layer "nitrogen" n u, std_layer "phh2o" p 0, std_layer "cec" c 0]

/-- A soil payload whose `cec` layer is absent. -/
def layers_no_cec (n u p w : ℚ) : List SoilLayer :=
  [std_layer "nitrogen" n u, std_layer "phh2o" p 0, std_layer "wv0010" w 0]

/-- The record persisted by a successful miss on `std_layers`. -/
def std_record (n u p w c : ℚ) (d0 : ForecastDay) (now : ℤ) (lat lon : ℚ)
    (recs : List String) : SoilData :=
  { lat := lat, lon := lon, nitrogen := some n, nitrogen_uncertainty := some u,
    ph := some p, moisture := some w, cec := some c,
    temperature := d0.day.avgtemp_c, humidity := d0.day.avghumidity,
    recommendations := String.intercalate "; " recs, predictions := "",
    date_recorded := now }

/-- A concrete forecast day: no rain, no wind, 20 °C, 50 % humidity. -/
def day0 : ForecastDay := ⟨⟨0, 0, 20, 50⟩⟩

/-- A stored record at the origin, recorded at time 0. -/
def rec_base : SoilData :=
  { lat := 0, lon := 0, nitrogen := none, nitrogen_uncertainty := none,
    ph := none, moisture := none, cec := none, temperature := 0, humidity := 0,
    recommendations := "", predictions := "", date_recorded := 0 }

/-- A stored record 0.7 degrees of latitude away from the origin. -/
def rec_far : SoilData := { rec_base with lat := 7/10 }

/-- A stored record exactly 0.5 degrees away from the origin on both axes. -/
def rec_edge : SoilData := { rec_base with lat := 1/2, lon := 1/2 }

/-- The joined recommendations produced for nitrogen 50, moisture 0.3,
phh2o 65 and cec 12 with the calm forecast `day0`. -/
def joined0 : String :=
  "Consider adding nitrogen-based fertilizers.; Soil pH is within the optimal range.; CEC is within the optimal range."

/-- The record persisted for that concrete input at (10, 20), time 0. -/
def rec0 : SoilData :=
  { lat := 10, lon := 20, nitrogen := some 50, nitrogen_uncertainty := some 10,
    ph := some 65, moisture := some (3/10), cec := some 12,
    temperature := 20, humidity := 50, recommendations := joined0,
    predictions := "", date_recorded := 0 }

/-! ### Helper lemmas about the recommendation engine -/

def gen_num (n w p c : ℚ) (wd : Option (List ForecastDay)) : List String :=
  let ph : ℚ := p / 10
  let r1 : List String := if decide (n < 100) then addSet [] msg_nitrogen else []
  let r2 : List String := if decide (w < 1/5) then addSet r1 msg_moisture else r1
  let r3 : List String :=
    if 6 < ph ∧ ph < 15/2 then addSet r2 msg_ph_optimal
    else if ph < 6 then addSet r2 msg_ph_lime
    else if 15/2 < ph then addSet r2 msg_ph_sulfur
    else r2
  let r4 : List String := if decide (10 ≤ c) then addSet r3 msg_cec else r3
  match wd with
  | none => r4
  | some days =>
    if days.isEmpty then r4
    else
      let ar := avg_rain days
      let aw := avg_wind days
      let r5 := if 50 < ar then addSet r4 (msg_rain ar) else r4
      if 20 < aw then addSet r5 (msg_wind aw) else r5

lemma gen_num_eq (n w p c : ℚ) (wd : Option (List ForecastDay)) :
    generate_recommendations ⟨some (some n), some (some w), some (some p), some (some c)⟩ wd
      = .ok (gen_num n w p c wd) := rfl

lemma mem_addSet (l : List String) (m x : String) :
    x ∈ addSet l m ↔ x ∈ l ∨ x = m := by
  unfold addSet
  split_ifs with h
  · constructor
    · exact Or.inl
    · rintro (hx | rfl)
      · exact hx
      · exact h
  · simp [List.mem_append]

lemma mem_addIf {q : Prop} [Decidable q] (l : List String) (m x : String) :
    (x ∈ if q then addSet l m else l) ↔ x ∈ l ∨ (q ∧ x = m) := by
  split_ifs with h
  · rw [mem_addSet]
    simp [h]
  · simp [h]

lemma mem_phChain (l : List String) (ph : ℚ) (x : String) :
    (x ∈ if 6 < ph ∧ ph < 15/2 then addSet l msg_ph_optimal
         else if ph < 6 then addSet l msg_ph_lime
         else if 15/2 < ph then addSet l msg_ph_sulfur
         else l) ↔
      x ∈ l ∨ ((6 < ph ∧ ph < 15/2) ∧ x = msg_ph_optimal) ∨
        (¬(6 < ph ∧ ph < 15/2) ∧ ph < 6 ∧ x = msg_ph_lime) ∨
        (¬(6 < ph ∧ ph < 15/2) ∧ ¬(ph < 6) ∧ 15/2 < ph ∧ x = msg_ph_sulfur) := by
  split_ifs with h1 h2 h3
  · simp [mem_addSet, h1]
  · simp [mem_addSet, h1, h2]
  · simp [mem_addSet, h1, h2, h3]
  · simp [h1, h2, h3]

/-- The pure rule chain shared by all weather shapes. -/
def gen_base (n w p c : ℚ) : List String :=
  let ph : ℚ := p / 10
  let r1 : List String := if decide (n < 100) then addSet [] msg_nitrogen else []
  let r2 : List String := if decide (w < 1/5) then addSet r1 msg_moisture else r1
  let r3 : List String :=
    if 6 < ph ∧ ph < 15/2 then addSet r2 msg_ph_optimal
    else if ph < 6 then addSet r2 msg_ph_lime
    else if 15/2 < ph then addSet r2 msg_ph_sulfur
    else r2
  if decide (10 ≤ c) then addSet r3 msg_cec else r3

lemma gen_num_none (n w p c : ℚ) : gen_num n w p c none = gen_base n w p c := rfl

lemma gen_num_some_nil (n w p c : ℚ) : gen_num n w p c (some []) = gen_base n w p c := rfl

lemma gen_num_some_cons (n w p c : ℚ) (d : ForecastDay) (ds : List ForecastDay) :
    gen_num n w p c (some (d :: ds)) =
      (if 20 < avg_wind (d :: ds) then
        addSet (if 50 < avg_rain (d :: ds) then
                  addSet (gen_base n w p c) (msg_rain (avg_rain (d :: ds)))
                else gen_base n w p c)
          (msg_wind (avg_wind (d :: ds)))
      else
        (if 50 < avg_rain (d :: ds) then
          addSet (gen_base n w p c) (msg_rain (avg_rain (d :: ds)))
        else gen_base n w p c)) := rfl

lemma mem_gen_base (n w p c : ℚ) (x : String) :
    x ∈ gen_base n w p c ↔
      (n < 100 ∧ x = msg_nitrogen) ∨
      (w < 1/5 ∧ x = msg_moisture) ∨
      ((6 < p/10 ∧ p/10 < 15/2) ∧ x = msg_ph_optimal) ∨
      (¬(6 < p/10 ∧ p/10 < 15/2) ∧ p/10 < 6 ∧ x = msg_ph_lime) ∨
      (¬(6 < p/10 ∧ p/10 < 15/2) ∧ ¬(p/10 < 6) ∧ 15/2 < p/10 ∧ x = msg_ph_sulfur) ∨
      (10 ≤ c ∧ x = msg_cec) := by
  unfold gen_base
  simp only [mem_addIf, mem_phChain, decide_eq_true_eq, List.not_mem_nil, false_or,
    or_assoc]

/-- Full membership characterization of the engine output for numeric inputs. -/
lemma mem_gen_num (n w p c : ℚ) (wd : Option (List ForecastDay)) (x : String) :
    x ∈ gen_num n w p c wd ↔
      (n < 100 ∧ x = msg_nitrogen) ∨
      (w < 1/5 ∧ x = msg_moisture) ∨
      ((6 < p/10 ∧ p/10 < 15/2) ∧ x = msg_ph_optimal) ∨
      (¬(6 < p/10 ∧ p/10 < 15/2) ∧ p/10 < 6 ∧ x = msg_ph_lime) ∨
      (¬(6 < p/10 ∧ p/10 < 15/2) ∧ ¬(p/10 < 6) ∧ 15/2 < p/10 ∧ x = msg_ph_sulfur) ∨
      (10 ≤ c ∧ x = msg_cec) ∨
      (∃ d ds, wd = some (d :: ds) ∧ 50 < avg_rain (d :: ds) ∧
        x = msg_rain (avg_rain (d :: ds))) ∨
      (∃ d ds, wd = some (d :: ds) ∧ 20 < avg_wind (d :: ds) ∧
        x = msg_wind (avg_wind (d :: ds))) := by
  cases wd with
  | none =>
    rw [gen_num_none, mem_gen_base]
    simp only [reduceCtorEq, false_and, exists_false, or_false]
  | some days =>
    cases days with
    | nil =>
      rw [gen_num_some_nil, mem_gen_base]
      simp only [Option.some.injEq, List.nil_eq, reduceCtorEq, false_and, and_false,
        exists_false, or_false]
    | cons d ds =>
      rw [gen_num_some_cons]
      simp [mem_addIf, mem_gen_base, or_assoc, and_assoc]


/-! ### Distinctness of the advisory strings -/

lemma ne_opt_nitrogen : msg_ph_optimal ≠ msg_nitrogen := by decide

lemma ne_opt_moisture : msg_ph_optimal ≠ msg_moisture := by decide

lemma ne_opt_lime : msg_ph_optimal ≠ msg_ph_lime := by decide

lemma ne_opt_sulfur : msg_ph_optimal ≠ msg_ph_sulfur := by decide

lemma ne_opt_cec : msg_ph_optimal ≠ msg_cec := by decide

lemma ne_lime_nitrogen : msg_ph_lime ≠ msg_nitrogen := by decide

lemma ne_lime_moisture : msg_ph_lime ≠ msg_moisture := by decide

lemma ne_lime_opt : msg_ph_lime ≠ msg_ph_optimal := by decide

lemma ne_lime_sulfur : msg_ph_lime ≠ msg_ph_sulfur := by decide

lemma ne_lime_cec : msg_ph_lime ≠ msg_cec := by decide

lemma ne_sulfur_nitrogen : msg_ph_sulfur ≠ msg_nitrogen := by decide

lemma ne_sulfur_moisture : msg_ph_sulfur ≠ msg_moisture := by decide

lemma ne_sulfur_opt : msg_ph_sulfur ≠ msg_ph_optimal := by decide

lemma ne_sulfur_lime : msg_ph_sulfur ≠ msg_ph_lime := by decide

lemma ne_sulfur_cec : msg_ph_sulfur ≠ msg_cec := by decide

lemma ne_opt_rain (v : ℚ) : msg_ph_optimal ≠ msg_rain v := by
  intro h
  have h4 : (['S', 'o', 'i', 'l'] : List Char) = ['H', 'i', 'g', 'h'] :=
    congrArg (fun s => s.data.take 4) h
  exact absurd h4 (by decide)

lemma ne_opt_wind (v : ℚ) : msg_ph_optimal ≠ msg_wind v := by
  intro h
  have h4 : (['S', 'o', 'i', 'l'] : List Char) = ['S', 't', 'r', 'o'] :=
    congrArg (fun s => s.data.take 4) h
  exact absurd h4 (by decide)

lemma ne_lime_rain (v : ℚ) : msg_ph_lime ≠ msg_rain v := by
  intro h
  have h4 : (['C', 'o', 'n', 's'] : List Char) = ['H', 'i', 'g', 'h'] :=
    congrArg (fun s => s.data.take 4) h
  exact absurd h4 (by decide)

lemma ne_lime_wind (v : ℚ) : msg_ph_lime ≠ msg_wind v := by
  intro h
  have h4 : (['C', 'o', 'n', 's'] : List Char) = ['S', 't', 'r', 'o'] :=
    congrArg (fun s => s.data.take 4) h
  exact absurd h4 (by decide)

lemma ne_sulfur_rain (v : ℚ) : msg_ph_sulfur ≠ msg_rain v := by
  intro h
  have h4 : (['C', 'o', 'n', 's'] : List Char) = ['H', 'i', 'g', 'h'] :=
    congrArg (fun s => s.data.take 4) h
  exact absurd h4 (by decide)

lemma ne_sulfur_wind (v : ℚ) : msg_ph_sulfur ≠ msg_wind v := by
  intro h
  have h4 : (['C', 'o', 'n', 's'] : List Char) = ['S', 't', 'r', 'o'] :=
    congrArg (fun s => s.data.take 4) h
  exact absurd h4 (by decide)

/-- Membership of the three pH advisories in the engine output, for any
numeric inputs and any forecast: exactly the branch conditions of the
`if`/`elif`/`elif` chain of lines 77-82. -/
lemma gen_num_ph_mem (n w p c : ℚ) (wd : Option (List ForecastDay)) :
    (msg_ph_optimal ∈ gen_num n w p c wd ↔ (6 < p/10 ∧ p/10 < 15/2))
  ∧ (msg_ph_lime ∈ gen_num n w p c wd ↔ (¬(6 < p/10 ∧ p/10 < 15/2) ∧ p/10 < 6))
  ∧ (msg_ph_sulfur ∈ gen_num n w p c wd ↔
      (¬(6 < p/10 ∧ p/10 < 15/2) ∧ ¬(p/10 < 6) ∧ 15/2 < p/10)) := by
  refine ⟨?_, ?_, ?_⟩ <;> rw [mem_gen_num] <;>
    simp [ne_opt_nitrogen, ne_opt_moisture, ne_opt_lime, ne_opt_sulfur, ne_opt_cec,
      ne_opt_rain, ne_opt_wind, ne_lime_nitrogen, ne_lime_moisture, ne_lime_opt,
      ne_lime_sulfur, ne_lime_cec, ne_lime_rain, ne_lime_wind, ne_sulfur_nitrogen,
      ne_sulfur_moisture, ne_sulfur_opt, ne_sulfur_lime, ne_sulfur_cec, ne_sulfur_rain,
      ne_sulfur_wind, and_assoc]

/-- Whenever any of the four values passed by `analyze_soil` is the Python
`None`, the engine raises `TypeError` (at line 69 for `phh2o`, line 73 for
`nitrogen`, line 75 for `wv0010`, line 83 for `cec`). -/
lemma gen_none_crash (n w p c : Option ℚ) (wd : Option (List ForecastDay))
    (h : n = none ∨ w = none ∨ p = none ∨ c = none) :
    generate_recommendations ⟨some n, some w, some p, some c⟩ wd = .error .typeError := by
  cases n <;> cases w <;> cases p <;> cases c <;>
    simp_all [generate_recommendations, pyDiv, pyLt, pyGe]


/-! ### Helper lemmas about the proximity lookup and the orchestrator -/

/-- `List.find?` returns exactly the first element satisfying the test. -/
lemma find?_first_iff {α : Type} (p : α → Bool) (l : List α) (a : α) :
    l.find? p = some a ↔
      ∃ l1 l2, l = l1 ++ a :: l2 ∧ p a = true ∧ ∀ x ∈ l1, p x = false := by
  induction l with
  | nil =>
    simp only [List.find?_nil]
    constructor
    · intro h
      exact absurd h (by simp)
    · rintro ⟨l1, l2, heq, -, -⟩
      exact absurd heq.symm (List.append_ne_nil_of_right_ne_nil l1 (List.cons_ne_nil a l2))
  | cons b tl ih =>
    rw [List.find?_cons]
    cases hb : p b with
    | true =>
      constructor
      · intro h
        obtain rfl : b = a := by simpa using h
        exact ⟨[], tl, rfl, hb, by simp⟩
      · rintro ⟨l1, l2, heq, hpa, hall⟩
        cases l1 with
        | nil =>
          obtain ⟨rfl, rfl⟩ : b = a ∧ tl = l2 := by simpa using heq
          rfl
        | cons c l1 =>
          obtain ⟨rfl, -⟩ : b = c ∧ tl = l1 ++ a :: l2 := by simpa using heq
          exact absurd hb (by simp [hall b (by simp)])
    | false =>
      rw [ih]
      constructor
      · rintro ⟨l1, l2, heq, hpa, hall⟩
        refine ⟨b :: l1, l2, by simp [heq], hpa, ?_⟩
        intro x hx
        rcases List.mem_cons.mp hx with rfl | hx
        · exact hb
        · exact hall x hx
      · rintro ⟨l1, l2, heq, hpa, hall⟩
        cases l1 with
        | nil =>
          obtain ⟨rfl, rfl⟩ : b = a ∧ tl = l2 := by simpa using heq
          exact absurd hpa (by simp [hb])
        | cons c l1 =>
          obtain ⟨rfl, htl⟩ : b = c ∧ tl = l1 ++ a :: l2 := by simpa using heq
          exact ⟨l1, l2, htl, hpa, fun x hx => hall x (by simp [hx])⟩

/-- The per-axis test of line 100, as a proposition. -/
lemma coord_match_iff (lat lon threshold : ℚ) (r : SoilData) :
    coord_match lat lon threshold r = true ↔
      |r.lat - lat| ≤ threshold ∧ |r.lon - lon| ≤ threshold := by
  simp [coord_match]

/-- A fresh first match is returned as-is: no fetch, no write, no delete. -/
lemma analyze_fresh_hit (db : List SoilData) (now : ℤ) (lat lon : ℚ)
    (so : SoilFetchOutcome) (wo : WeatherFetchOutcome) (r : SoilData)
    (hf : find_closest_coordinates db lat lon (1/2) = some r)
    (hfresh : now - r.date_recorded ≤ 2 * 86400) :
    analyze_soil db now lat lon so wo = ⟨.found r, db, false⟩ := by
  unfold analyze_soil
  rw [hf]
  simp only [if_neg (by omega : ¬ now - r.date_recorded > 2 * 86400)]

/-- A stale first match is deleted and the request continues as a miss. -/
lemma analyze_stale_evict (db : List SoilData) (now : ℤ) (lat lon : ℚ)
    (so : SoilFetchOutcome) (wo : WeatherFetchOutcome) (r : SoilData)
    (hf : find_closest_coordinates db lat lon (1/2) = some r)
    (hstale : now - r.date_recorded > 2 * 86400) :
    analyze_soil db now lat lon so wo = analyze_miss (db.erase r) now lat lon so wo := by
  unfold analyze_soil
  rw [hf]
  simp only [if_pos hstale]

/-- The miss path never produces a cache-hit response. -/
lemma analyze_miss_ne_found (db : List SoilData) (now : ℤ) (lat lon : ℚ)
    (so : SoilFetchOutcome) (wo : WeatherFetchOutcome) (x : SoilData) :
    (analyze_miss db now lat lon so wo).res ≠ .found x := by
  unfold analyze_miss
  dsimp only
  split
  · simp
  · split <;> try simp
    split <;> try simp
    split <;> try simp
    split <;> try simp
    split <;> try simp
    split <;> simp

/-- On an empty table, a complete payload and a non-empty forecast, the miss
path persists exactly one record built from the extracted values, stores the
recommendations joined with a semicolon separator, and returns the same
joined string in the response. -/
lemma analyze_std_success (n u p w c : ℚ) (d0 : ForecastDay) (rest : List ForecastDay)
    (now : ℤ) (lat lon : ℚ) :
    analyze_soil [] now lat lon (.ok (std_layers n u p w c)) (.ok (d0 :: rest)) =
      ⟨.success ⟨std_record n u p w c d0 now lat lon (gen_num n w p c (some (d0 :: rest))),
          .asString (String.intercalate "; " (gen_num n w p c (some (d0 :: rest))))⟩,
        [std_record n u p w c d0 now lat lon (gen_num n w p c (some (d0 :: rest)))],
        true⟩ := rfl

/-! ### Claims -/

/-- C1: the claim states that whenever the soil fetch fails on a cache miss
(non-200 status or entirely-null payload) the whole operation fails with the
fetch-failure (`UpstreamUnavailable`) response and nothing is persisted.
What the code does: `get_soil_data` returns a non-empty error dict, which is
truthy, so the guard of line 139 does not fire; iterating the dict at line
142 yields its string key and `"error"["name"]` raises an uncaught
`TypeError`.  The operation does fail and nothing is persisted, but with a
crash, not with the fetch-failure response; that response is produced only
when the weather fetch fails (last conjunct). -/
theorem C1_soil_failure_crashes_not_reported :
    get_soil_data (.httpError 500) = .errorDict "Failed to fetch data: 500"
    ∧ analyze_soil [] 0 5 5 (.httpError 500) (.ok [day0]) = ⟨.crash .typeError, [], true⟩
    ∧ get_soil_data (.ok []) = .errorDict "Data returned is null. Please try again later."
    ∧ analyze_soil [] 0 5 5 (.ok []) (.ok [day0]) = ⟨.crash .typeError, [], true⟩
    ∧ decide (analyze_soil [] 0 5 5 (.httpError 500) (.ok [day0])
        = ⟨.fetchFail, [], true⟩) = false
    ∧ analyze_soil [] 0 5 5 (.httpError 500) (.httpError 500) = ⟨.fetchFail, [], true⟩ := by
  refine ⟨rfl, rfl, rfl, rfl, ?_, rfl⟩
  with_unfolding_all rfl

/-- C2 counterexample: at the `analyze_soil` call site an absent nitrogen
measurement reaches the engine as a present key with value `None` (see
lines 148-154 and 172-177); the engine then raises `TypeError` at
`nitrogen < 100` instead of treating the input as 0 and returning a result
normally.  The last conjunct shows the 0 default applies only when the key
itself is absent from the dict. -/
theorem C2_counterexample :
    generate_recommendations
        ⟨some none, some (some (3/10)), some (some 65), some (some 12)⟩ none
      = .error .typeError
    ∧ (generate_recommendations
        ⟨some none, some (some (3/10)), some (some 65), some (some 12)⟩ none).isOk = false
    ∧ generate_recommendations
        ⟨none, some (some (3/10)), some (some 65), some (some 12)⟩ none
      = .ok [msg_nitrogen, msg_ph_optimal, msg_cec] := by
  refine ⟨rfl, rfl, ?_⟩
  with_unfolding_all rfl

/-- C2 (amended): a measurement key absent from the dict is substituted by 0
and evaluation proceeds normally; but the orchestrator always passes all
four keys, an absent measurement arriving as the value `None`, and on any
`None` value the engine raises `TypeError` instead of defaulting to 0. -/
theorem C2_absent_key_defaults_none_value_raises :
    (∀ (sd : SoilDict) (wd : Option (List ForecastDay)),
      generate_recommendations { sd with nitrogen := none } wd
        = generate_recommendations { sd with nitrogen := some (some 0) } wd)
    ∧ (∀ (sd : SoilDict) (wd : Option (List ForecastDay)),
      generate_recommendations { sd with wv0010 := none } wd
        = generate_recommendations { sd with wv0010 := some (some 0) } wd)
    ∧ (∀ (sd : SoilDict) (wd : Option (List ForecastDay)),
      generate_recommendations { sd with phh2o := none } wd
        = generate_recommendations { sd with phh2o := some (some 0) } wd)
    ∧ (∀ (sd : SoilDict) (wd : Option (List ForecastDay)),
      generate_recommendations { sd with cec := none } wd
        = generate_recommendations { sd with cec := some (some 0) } wd)
    ∧ (∀ wd, (generate_recommendations ⟨none, none, none, none⟩ wd).isOk = true)
    ∧ (∀ (n w p c : Option ℚ) (wd : Option (List ForecastDay)),
        (n = none ∨ w = none ∨ p = none ∨ c = none) →
        generate_recommendations ⟨some n, some w, some p, some c⟩ wd
          = .error .typeError) :=
  ⟨fun _ _ => rfl, fun _ _ => rfl, fun _ _ => rfl, fun _ _ => rfl, fun _ => rfl,
    gen_none_crash⟩

/-- C2 witness: the amended theorem applied at a concrete input whose
`wv0010` measurement is the Python `None`. -/
theorem C2_witness :
    generate_recommendations
        ⟨some (some 1), some none, some (some 70), some (some 11)⟩ none
      = .error .typeError :=
  C2_absent_key_defaults_none_value_raises.2.2.2.2.2 (some 1) none (some 70) (some 11)
    none (Or.inr (Or.inl rfl))

/-- C3 counterexample: both fetchers succeed but the nitrogen layer is
absent; the claim says the record is still persisted with a null field.
Instead the request crashes with `TypeError` (the engine meets the `None`
measurement) and the table stays empty: nothing is persisted. -/
theorem C3_counterexample :
    analyze_soil [] 0 10 20 (.ok (layers_no_nitrogen 65 (3/10) 12)) (.ok [day0])
      = ⟨.crash .typeError, [], true⟩
    ∧ (analyze_soil [] 0 10 20 (.ok (layers_no_nitrogen 65 (3/10) 12)) (.ok [day0])).db
      = [] :=
  ⟨rfl, rfl⟩

/-- C3 (amended): when both fetchers succeed but one of the four named
layers is absent, the corresponding value is extracted as `None`, but the
record is not persisted: the recommendation step raises `TypeError` on the
`None` measurement while the record is being built, the request crashes,
and the table is left unchanged (had construction succeeded, the
`nullable=False` columns would also have rejected the `None`). -/
theorem C3_missing_layer_crashes_nothing_persisted :
    (∀ (p w c lat lon : ℚ) (now : ℤ) (d0 : ForecastDay) (rest : List ForecastDay),
      extract_nitrogen (layers_no_nitrogen p w c) = .ok (none, none)
      ∧ analyze_soil [] now lat lon (.ok (layers_no_nitrogen p w c)) (.ok (d0 :: rest))
          = ⟨.crash .typeError, [], true⟩)
    ∧ (∀ (n u w c lat lon : ℚ) (now : ℤ) (d0 : ForecastDay) (rest : List ForecastDay),
      extract_phh2o (layers_no_phh2o n u w c) = .ok none
      ∧ analyze_soil [] now lat lon (.ok (layers_no_phh2o n u w c)) (.ok (d0 :: rest))
          = ⟨.crash .typeError, [], true⟩)
    ∧ (∀ (n u p c lat lon : ℚ) (now : ℤ) (d0 : ForecastDay) (rest : List ForecastDay),
      extract_wv0010 (layers_no_wv0010 n u p c) = .ok none
      ∧ analyze_soil [] now lat lon (.ok (layers_no_wv0010 n u p c)) (.ok (d0 :: rest))
          = ⟨.crash .typeError, [], true⟩)
    ∧ (∀ (n u p w lat lon : ℚ) (now : ℤ) (d0 : ForecastDay) (rest : List ForecastDay),
      extract_cec (layers_no_cec n u p w) = .ok none
      ∧ analyze_soil [] now lat lon (.ok (layers_no_cec n u p w)) (.ok (d0 :: rest))
          = ⟨.crash .typeError, [], true⟩) :=
  ⟨fun _ _ _ _ _ _ _ _ => ⟨rfl, rfl⟩, fun _ _ _ _ _ _ _ _ _ => ⟨rfl, rfl⟩,
    fun _ _ _ _ _ _ _ _ _ => ⟨rfl, rfl⟩, fun _ _ _ _ _ _ _ _ _ => ⟨rfl, rfl⟩⟩

/-- C4 counterexample: a fully successful cache miss.  The recommendations
are joined for storage (first conjunct: the persisted record carries the
joined string `joined0`), but the value handed back to the caller is that
same joined string, not a list of advisory strings (second and third
conjuncts): the response field is `RecsField.asString`, and it differs from
the `asList` value the claim promises. -/
theorem C4_counterexample :
    analyze_soil [] 0 10 20 (.ok (std_layers 50 10 65 (3/10) 12)) (.ok [day0])
      = ⟨.success ⟨rec0, .asString joined0⟩, [rec0], true⟩
    ∧ decide ((analyze_soil [] 0 10 20 (.ok (std_layers 50 10 65 (3/10) 12))
        (.ok [day0])).res
      = .success ⟨rec0, .asList [msg_nitrogen, msg_ph_optimal, msg_cec]⟩) = false
    ∧ String.intercalate "; " [msg_nitrogen, msg_ph_optimal, msg_cec] = joined0 := by
  refine ⟨?_, ?_, ?_⟩ <;> with_unfolding_all rfl

/-- C4 (amended): on every successful cache miss the engine output is
joined with a semicolon separator for storage in the persisted record, and
the response returns the caller the same joined string
(`new_record.recommendations`), not a list. -/
theorem C4_joined_for_storage_and_response
    (n u p w c : ℚ) (d0 : ForecastDay) (rest : List ForecastDay)
    (now : ℤ) (lat lon : ℚ) :
    generate_recommendations
        ⟨some (some n), some (some w), some (some p), some (some c)⟩ (some (d0 :: rest))
      = .ok (gen_num n w p c (some (d0 :: rest)))
    ∧ analyze_soil [] now lat lon (.ok (std_layers n u p w c)) (.ok (d0 :: rest)) =
        ⟨.success ⟨std_record n u p w c d0 now lat lon (gen_num n w p c (some (d0 :: rest))),
            .asString (String.intercalate "; " (gen_num n w p c (some (d0 :: rest))))⟩,
          [std_record n u p w c d0 now lat lon (gen_num n w p c (some (d0 :: rest)))],
          true⟩
    ∧ (std_record n u p w c d0 now lat lon
        (gen_num n w p c (some (d0 :: rest)))).recommendations
      = String.intercalate "; " (gen_num n w p c (some (d0 :: rest))) :=
  ⟨gen_num_eq n w p c _, analyze_std_success n u p w c d0 rest now lat lon, rfl⟩

/-- C5 counterexample: with the nitrogen layer absent, the extracted pair is
`(None, None)`: the nitrogen value is null as claimed, but the uncertainty
is null as well, not the claimed default 0. -/
theorem C5_counterexample :
    extract_nitrogen (layers_no_nitrogen 65 (3/10) 12)
      = .ok ((none : Option ℚ), (none : Option ℚ))
    ∧ decide ((none : Option ℚ) = some 0) = false :=
  ⟨rfl, rfl⟩

/-- C5 (amended): a missing nitrogen layer yields null for both the
nitrogen value and its uncertainty; the `.get('uncertainty', 0)` default of
line 151 applies only when the layer is present but its `values` dict lacks
the `uncertainty` key; every other missing named layer yields null. -/
theorem C5_missing_layer_nulls :
    (∀ layers, layers.find? (fun l => l.name == "nitrogen") = none →
      extract_nitrogen layers = .ok (none, none))
    ∧ (∀ (layers : List SoilLayer) (l : SoilLayer) (d : SoilDepth) (ds : List SoilDepth),
        layers.find? (fun l2 => l2.name == "nitrogen") = some l →
        l.depths = d :: ds → d.values.uncertainty = none →
        extract_nitrogen layers = .ok (d.values.mean, some 0))
    ∧ (∀ layers, layers.find? (fun l => l.name == "phh2o") = none →
        extract_phh2o layers = .ok none)
    ∧ (∀ layers, layers.find? (fun l => l.name == "wv0010") = none →
        extract_wv0010 layers = .ok none)
    ∧ (∀ layers, layers.find? (fun l => l.name == "cec") = none →
        extract_cec layers = .ok none) := by
  refine ⟨?_, ?_, ?_, ?_, ?_⟩
  · intro layers h
    unfold extract_nitrogen
    rw [h]
  · intro layers l d ds h hd hu
    simp [extract_nitrogen, h, hd, hu]
  · intro layers h
    unfold extract_phh2o
    rw [h]
  · intro layers h
    unfold extract_wv0010
    rw [h]
  · intro layers h
    unfold extract_cec
    rw [h]

/-- C5 witness: the amended theorem applied to an empty payload, to a
single-layer payload without a `phh2o` layer, and to a nitrogen layer whose
`values` dict has a mean but no `uncertainty` key. -/
theorem C5_witness :
    extract_nitrogen ([] : List SoilLayer) = .ok (none, none)
    ∧ extract_phh2o [std_layer "nitrogen" 1 2] = .ok none
    ∧ extract_nitrogen [⟨"nitrogen", [⟨⟨some 7, none⟩⟩]⟩] = .ok (some 7, some 0) :=
  ⟨C5_missing_layer_nulls.1 [] rfl,
    C5_missing_layer_nulls.2.2.1 [std_layer "nitrogen" 1 2] rfl,
    C5_missing_layer_nulls.2.1 [⟨"nitrogen", [⟨⟨some 7, none⟩⟩]⟩] ⟨"nitrogen", [⟨⟨some 7, none⟩⟩]⟩
      ⟨⟨some 7, none⟩⟩ [] rfl rfl rfl⟩

/-- C6: with threshold 0.5, `find_closest_coordinates` returns exactly the
first record in storage order whose absolute latitude and longitude
differences from the query are both at most the threshold (an independent
per-axis test), and nothing when no stored record passes both tests; a
record at exactly the threshold difference on both axes matches, and one at
threshold + ε on either axis does not. -/
theorem C6_find_near_first_match (db : List SoilData) (lat lon : ℚ) :
    (∀ r, find_closest_coordinates db lat lon (1/2) = some r ↔
      ∃ l1 l2, db = l1 ++ r :: l2 ∧ coord_match lat lon (1/2) r = true
        ∧ ∀ x ∈ l1, coord_match lat lon (1/2) x = false)
    ∧ (find_closest_coordinates db lat lon (1/2) = none ↔
        ∀ r ∈ db, coord_match lat lon (1/2) r = false)
    ∧ (∀ r : SoilData, coord_match lat lon (1/2) r = true ↔
        |r.lat - lat| ≤ 1/2 ∧ |r.lon - lon| ≤ 1/2)
    ∧ (∀ r : SoilData, |r.lat - lat| = 1/2 → |r.lon - lon| = 1/2 →
        coord_match lat lon (1/2) r = true)
    ∧ (∀ (r : SoilData) (ε : ℚ), 0 < ε →
        (|r.lat - lat| = 1/2 + ε ∨ |r.lon - lon| = 1/2 + ε) →
        coord_match lat lon (1/2) r = false) := by
  refine ⟨fun r => find?_first_iff _ db r, ?_, fun r => coord_match_iff lat lon (1/2) r,
    ?_, ?_⟩
  · unfold find_closest_coordinates
    rw [List.find?_eq_none]
    simp only [Bool.not_eq_true]
  · intro r h1 h2
    rw [coord_match_iff]
    exact ⟨le_of_eq h1, le_of_eq h2⟩
  · intro r ε hε hor
    rw [← Bool.not_eq_true, coord_match_iff]
    rintro ⟨ha, hb⟩
    rcases hor with h | h
    · rw [h] at ha
      linarith
    · rw [h] at hb
      linarith

/-- C6 witness: at the query (0, 0), the record at (0.7, 0) does not match,
the record at exactly (0.5, 0.5) does, and the scan returns the first (and
here only) matching record in storage order. -/
theorem C6_witness :
    find_closest_coordinates [rec_far, rec_edge] 0 0 (1/2) = some rec_edge :=
  ((C6_find_near_first_match [rec_far, rec_edge] 0 0).1 rec_edge).mpr
    ⟨[rec_far], [], rfl, by with_unfolding_all rfl, by
      intro x hx
      have hx2 : x = rec_far := by simpa using hx
      subst hx2
      with_unfolding_all rfl⟩

/-- C7: a matched record is treated as fresh and returned exactly when
`now - date_recorded ≤ 2 days` (so the record at exactly two days of age is
fresh); a strictly older match is deleted from the table and the request
continues as a miss on the remaining records. -/
theorem C7_freshness_window (db : List SoilData) (now : ℤ) (lat lon : ℚ)
    (so : SoilFetchOutcome) (wo : WeatherFetchOutcome) (r : SoilData)
    (hf : find_closest_coordinates db lat lon (1/2) = some r) :
    ((analyze_soil db now lat lon so wo).res = .found r ↔
      now - r.date_recorded ≤ 2 * 86400)
    ∧ (now - r.date_recorded ≤ 2 * 86400 →
        analyze_soil db now lat lon so wo = ⟨.found r, db, false⟩)
    ∧ (now - r.date_recorded > 2 * 86400 →
        analyze_soil db now lat lon so wo
          = analyze_miss (db.erase r) now lat lon so wo) := by
  refine ⟨⟨?_, ?_⟩, fun h => analyze_fresh_hit db now lat lon so wo r hf h,
    fun h => analyze_stale_evict db now lat lon so wo r hf h⟩
  · intro hres
    by_contra hlt
    rw [analyze_stale_evict db now lat lon so wo r hf (by omega)] at hres
    exact analyze_miss_ne_found _ now lat lon so wo r hres
  · intro h
    rw [analyze_fresh_hit db now lat lon so wo r hf h]

/-- C7 witness: the record recorded at time 0 and looked up at exactly
two days (172800 s) is still fresh and returned; the fetch outcomes are
irrelevant on this path. -/
theorem C7_witness :
    analyze_soil [rec_base] 172800 0 0 (.httpError 500) (.httpError 500)
      = ⟨.found rec_base, [rec_base], false⟩ :=
  (C7_freshness_window [rec_base] 172800 0 0 (.httpError 500) (.httpError 500) rec_base
      (by with_unfolding_all rfl)).2.1 (by with_unfolding_all decide)

/-- C8: for every phRaw (and any other numeric inputs and forecast) at most
one pH advisory is produced and the three branches are mutually exclusive,
the optimal branch being tested first; phRaw 65 yields only the optimal
message, 50 only the lime message, 80 only the sulfur message. -/
theorem C8_ph_branches_exclusive (n w c : ℚ) (wd : Option (List ForecastDay)) (p : ℚ) :
    ∃ recs, generate_recommendations
        ⟨some (some n), some (some w), some (some p), some (some c)⟩ wd = .ok recs
      ∧ ¬(msg_ph_optimal ∈ recs ∧ msg_ph_lime ∈ recs)
      ∧ ¬(msg_ph_optimal ∈ recs ∧ msg_ph_sulfur ∈ recs)
      ∧ ¬(msg_ph_lime ∈ recs ∧ msg_ph_sulfur ∈ recs)
      ∧ ((6 < p/10 ∧ p/10 < 15/2) →
          msg_ph_optimal ∈ recs ∧ msg_ph_lime ∉ recs ∧ msg_ph_sulfur ∉ recs)
      ∧ (p = 65 → msg_ph_optimal ∈ recs ∧ msg_ph_lime ∉ recs ∧ msg_ph_sulfur ∉ recs)
      ∧ (p = 50 → msg_ph_lime ∈ recs ∧ msg_ph_optimal ∉ recs ∧ msg_ph_sulfur ∉ recs)
      ∧ (p = 80 → msg_ph_sulfur ∈ recs ∧ msg_ph_optimal ∉ recs ∧ msg_ph_lime ∉ recs) := by
  obtain ⟨hopt, hlime, hsulf⟩ := gen_num_ph_mem n w p c wd
  refine ⟨gen_num n w p c wd, gen_num_eq n w p c wd, ?_, ?_, ?_, ?_, ?_, ?_, ?_⟩
  · rw [hopt, hlime]
    tauto
  · rw [hopt, hsulf]
    tauto
  · rw [hlime, hsulf]
    tauto
  · intro h
    rw [hopt, hlime, hsulf]
    exact ⟨h, fun hc => hc.1 h, fun hc => hc.1 h⟩
  · rintro rfl
    rw [hopt, hlime, hsulf]
    norm_num
  · rintro rfl
    rw [hopt, hlime, hsulf]
    norm_num
  · rintro rfl
    rw [hopt, hlime, hsulf]
    norm_num

/-- C8 witness: the theorem applied at phRaw 65 with concrete companions:
only the optimal-range message among the three pH advisories. -/
theorem C8_witness :
    ∃ recs, generate_recommendations
        ⟨some (some 50), some (some (3/10)), some (some 65), some (some 12)⟩ none
      = .ok recs
      ∧ msg_ph_optimal ∈ recs ∧ msg_ph_lime ∉ recs ∧ msg_ph_sulfur ∉ recs := by
  obtain ⟨recs, h1, -, -, -, -, h65, -, -⟩ := C8_ph_branches_exclusive 50 (3/10) 12 none 65
  exact ⟨recs, h1, h65 rfl⟩

/-- C9: a fresh hit within the proximity threshold returns the cached record
with no side effects beyond the read: the fetchers are not invoked (the
`fetched` flag is false and the fetch outcomes are irrelevant) and the table
is unchanged.  Consequently a second `analyze` at coordinates 0.1 away from
a freshly persisted record, within the freshness window, returns that same
record without re-invoking the fetchers. -/
theorem C9_fresh_hit_no_side_effects (db : List SoilData) (now : ℤ) (lat lon : ℚ)
    (so : SoilFetchOutcome) (wo : WeatherFetchOutcome) (r : SoilData)
    (hf : find_closest_coordinates db lat lon (1/2) = some r)
    (hfresh : now - r.date_recorded ≤ 2 * 86400) :
    analyze_soil db now lat lon so wo = ⟨.found r, db, false⟩
    ∧ (∀ (n u p w c : ℚ) (d0 : ForecastDay) (rest : List ForecastDay)
        (now1 now2 : ℤ) (lat1 lon1 : ℚ) (so2 : SoilFetchOutcome)
        (wo2 : WeatherFetchOutcome) (r2 : SoilData),
        (analyze_soil [] now1 lat1 lon1 (.ok (std_layers n u p w c))
          (.ok (d0 :: rest))).db = [r2] →
        now2 - now1 ≤ 2 * 86400 →
        analyze_soil [r2] now2 (lat1 + 1/10) (lon1 + 1/10) so2 wo2
          = ⟨.found r2, [r2], false⟩) := by
  constructor
  · exact analyze_fresh_hit db now lat lon so wo r hf hfresh
  · intro n u p w c d0 rest now1 now2 lat1 lon1 so2 wo2 r2 hdb hfresh2
    rw [analyze_std_success] at hdb
    obtain rfl : std_record n u p w c d0 now1 lat1 lon1
        (gen_num n w p c (some (d0 :: rest))) = r2 := by
      simpa using hdb
    apply analyze_fresh_hit
    · have hcm : coord_match (lat1 + 1/10) (lon1 + 1/10) (1/2)
          (std_record n u p w c d0 now1 lat1 lon1
            (gen_num n w p c (some (d0 :: rest)))) = true := by
        rw [coord_match_iff]
        constructor
        · show |lat1 - (lat1 + 1/10)| ≤ 1/2
          rw [abs_le]
          constructor <;> linarith
        · show |lon1 - (lon1 + 1/10)| ≤ 1/2
          rw [abs_le]
          constructor <;> linarith
      exact List.find?_cons_of_pos _ hcm
    · show now2 - now1 ≤ 2 * 86400
      exact hfresh2

/-- C9 witness: persist a record at (3, 4) via a successful miss at time 0,
then look it up at (3.1, 4.1) at exactly the freshness boundary with both
fetchers failing: the cached record is returned unchanged and untouched. -/
theorem C9_witness :
    analyze_soil
        [std_record 50 10 65 (3/10) 12 day0 0 3 4 (gen_num 50 (3/10) 65 12 (some [day0]))]
        172800 (3 + 1/10) (4 + 1/10) (.httpError 404) (.httpError 404)
      = ⟨.found (std_record 50 10 65 (3/10) 12 day0 0 3 4
            (gen_num 50 (3/10) 65 12 (some [day0]))),
          [std_record 50 10 65 (3/10) 12 day0 0 3 4
            (gen_num 50 (3/10) 65 12 (some [day0]))], false⟩ :=
  (C9_fresh_hit_no_side_effects [rec_base] 0 0 0 (.httpError 404) (.httpError 404)
      rec_base (by with_unfolding_all rfl) (by with_unfolding_all decide)).2
    50 10 65 (3/10) 12 day0 [] 0 172800 3 4 (.httpError 404) (.httpError 404)
    (std_record 50 10 65 (3/10) 12 day0 0 3 4 (gen_num 50 (3/10) 65 12 (some [day0])))
    (by rw [analyze_std_success]) (by decide)

/-- C10: at the boundary values themselves the engine produces no pH
advisory at all: with phRaw exactly 60 (pH 6.0) or exactly 75 (pH 7.5),
none of the optimal, lime or sulfur messages is in the output, because the
three conditions `6 < pH < 7.5`, `pH < 6` and `pH > 7.5` all exclude those
points. -/
theorem C10_ph_boundary_no_advisory (n w c : ℚ) (wd : Option (List ForecastDay)) :
    (∃ recs, generate_recommendations
        ⟨some (some n), some (some w), some (some 60), some (some c)⟩ wd = .ok recs
      ∧ msg_ph_optimal ∉ recs ∧ msg_ph_lime ∉ recs ∧ msg_ph_sulfur ∉ recs)
    ∧ (∃ recs, generate_recommendations
        ⟨some (some n), some (some w), some (some 75), some (some c)⟩ wd = .ok recs
      ∧ msg_ph_optimal ∉ recs ∧ msg_ph_lime ∉ recs ∧ msg_ph_sulfur ∉ recs) := by
  constructor
  · obtain ⟨hopt, hlime, hsulf⟩ := gen_num_ph_mem n w 60 c wd
    refine ⟨gen_num n w 60 c wd, gen_num_eq n w 60 c wd, ?_, ?_, ?_⟩
    · rw [hopt]
      norm_num
    · rw [hlime]
      norm_num
    · rw [hsulf]
      norm_num
  · obtain ⟨hopt, hlime, hsulf⟩ := gen_num_ph_mem n w 75 c wd
    refine ⟨gen_num n w 75 c wd, gen_num_eq n w 75 c wd, ?_, ?_, ?_⟩
    · rw [hopt]
      norm_num
    · rw [hlime]
      norm_num
    · rw [hsulf]
      norm_num
